import Mathlib

/-!
Verification development for the `compare-live` dashboard (src/app.py).

The file shallowly embeds the data-preparation and aggregation pipeline:

* `parseTimestamp` — the strict `to_datetime(format="%d.%m.%Y %H:%M:%S", errors="coerce")`
  parsing of the `APPLICATION DATE` column (app.py lines 14-19);
* `prepareRow` / `load_and_prepare_data` — dropna over the three required columns,
  the normalized `status == "paid"` filter, derivation of day/year/month and the
  source label, and the two exception branches returning an empty frame
  (app.py lines 9-44);
* `regions` — the startup sentinel / sorted-unique region list (app.py lines 54-59);
* `update_chart` — the callback: empty-data figure, region/month narrowing with
  Python truthiness, the awaiting-month prompt, the empty-filter title, the
  day-by-period groupby/size aggregation and `calendar.monthrange(2024, month)`
  (app.py lines 141-243);
* `update_chart_st` — the same callback with the module-level combined table
  threaded as explicit state (`dff = df_combined.copy()` gives the local copy).
-/

/-- Calendar timestamp as produced by a successful `to_datetime` parse. -/
structure Timestamp where
  year : Nat
  month : Nat
  day : Nat
  hour : Nat
  minute : Nat
  second : Nat
deriving DecidableEq, Repr

/-- Leap-year rule used by Python's `calendar` module. -/
def isLeapYear (y : Nat) : Bool :=
  y % 4 == 0 && (y % 100 != 0 || y % 400 == 0)

/-- Number of days in a month: `calendar.monthrange(y, m)[1]`. -/
def monthrangeDays (y m : Nat) : Nat :=
  if m == 2 then (if isLeapYear y then 29 else 28)
  else if m == 4 || m == 6 || m == 9 || m == 11 then 30
  else 31

/-- The `calendar.month_name` table; index 0 is the empty string. -/
def month_name : List String :=
  ["", "January", "February", "March", "April", "May", "June",
   "July", "August", "September", "October", "November", "December"]

/-- `calendar.month_name[m]`. -/
def monthName (m : Nat) : String :=
  month_name.getD m ""

/-- Consume up to `max` leading digits of a character list. -/
def spanDigits : List Char → Nat → List Char × List Char
  | cs, 0 => ([], cs)
  | [], _ + 1 => ([], [])
  | c :: rest, m + 1 =>
    if c.isDigit then
      let p := spanDigits rest m
      (c :: p.1, p.2)
    else ([], c :: rest)

/-- Decimal value of a digit list. -/
def digitsToNat (ds : List Char) : Nat :=
  ds.foldl (fun a c => a * 10 + (c.toNat - 48)) 0

/-- Parse a 1-to-`maxLen`-digit decimal field (strptime numeric directive). -/
def parseNum (cs : List Char) (maxLen : Nat) : Option (Nat × List Char) :=
  let p := spanDigits cs maxLen
  if p.1.isEmpty then none else some (digitsToNat p.1, p.2)

/-- Parse an exactly-`len`-digit decimal field (strptime `%Y`). -/
def parseNumExact (cs : List Char) (len : Nat) : Option (Nat × List Char) :=
  let p := spanDigits cs len
  if p.1.length == len then some (digitsToNat p.1, p.2) else none

/-- Require a literal character. -/
def expectChar (c : Char) : List Char → Option (List Char)
  | x :: rest => if x == c then some rest else none
  | [] => none

/-- Strict parse of the format `%d.%m.%Y %H:%M:%S` with calendar validation,
failures coerced to `none` — the behaviour of
`pd.to_datetime(col, format="%d.%m.%Y %H:%M:%S", errors="coerce")` on a string
cell (app.py lines 14-19).  The whole string must match the format, so a
date with no time-of-day part does not parse. -/
def parseTimestamp (s : String) : Option Timestamp := do
  let cs := s.toList
  let (d, r1) ← parseNum cs 2
  let r2 ← expectChar '.' r1
  let (mo, r3) ← parseNum r2 2
  let r4 ← expectChar '.' r3
  let (y, r5) ← parseNumExact r4 4
  let r6 ← expectChar ' ' r5
  let (h, r7) ← parseNum r6 2
  let r8 ← expectChar ':' r7
  let (mi, r9) ← parseNum r8 2
  let r10 ← expectChar ':' r9
  let (sec, r11) ← parseNum r10 2
  if r11.isEmpty && 1 ≤ mo && mo ≤ 12 && 1 ≤ d && d ≤ monthrangeDays y mo
      && h ≤ 23 && mi ≤ 59 && sec ≤ 59 then
    some ⟨y, mo, d, h, mi, sec⟩
  else
    none

/-- One row of a source table: the three columns the pipeline reads.
A `none` cell is a missing value (NaN). -/
structure RawRecord where
  applicationDate : Option String
  region : Option String
  status : Option String
deriving DecidableEq, Repr

/-- One row of the prepared frame: the original columns plus the derived
`DAY_OF_MONTH`, `YEAR`, `MONTH_NUM` and `SOURCE` columns (app.py lines 25-28). -/
structure PreparedRecord where
  applicationDate : Timestamp
  region : String
  status : String
  dayOfMonth : Nat
  year : Nat
  monthNum : Nat
  source : String
deriving DecidableEq, Repr

/-- Whitespace characters removed by Python's `str.strip()`:
space, tab, newline, carriage return, vertical tab and form feed. -/
def isSpaceChar (c : Char) : Bool :=
  c == ' ' || c == '\t' || c == '\n' || c == '\r' || c.toNat == 11 || c.toNat == 12

/-- ASCII lowercasing of one character, as `str.lower()` does on these inputs. -/
def lowerChar (c : Char) : Char :=
  if 65 ≤ c.toNat && c.toNat ≤ 90 then Char.ofNat (c.toNat + 32) else c

/-- Python's `str.strip()`: drop leading and trailing whitespace. -/
def pyStrip (s : String) : String :=
  String.mk (((s.toList.dropWhile isSpaceChar).reverse.dropWhile isSpaceChar).reverse)

/-- Python's `str.lower()`. -/
def pyLower (s : String) : String :=
  String.mk (s.toList.map lowerChar)

/-- Per-row effect of app.py lines 14-28: coerce-parse the date, drop the row
when date, region or status is missing (`dropna`), keep it only when the
stripped lowercased status equals `"paid"` (the mask
`df["Status"].str.strip().str.lower() == "paid"`), then derive the calendar
fields and attach the source label.  The stored `Status` value itself is not
rewritten. -/
def prepareRow (label : String) (r : RawRecord) : Option PreparedRecord :=
  match r.applicationDate.bind parseTimestamp, r.region, r.status with
  | some ts, some reg, some st =>
    if pyLower (pyStrip st) == "paid" then
      some ⟨ts, reg, st, ts.day, ts.year, ts.month, label⟩
    else
      none
  | _, _, _ => none

/-- A tabular source as the loader sees it: either the file is missing
(`FileNotFoundError`) or it is readable with a given set of columns. -/
inductive Source
  | missing
  | table (cols : List String) (rows : List RawRecord)
deriving DecidableEq, Repr

/-- The diagnostic line printed by the loader (app.py lines 30, 34, 40). -/
inductive LoadDiag
  | success (n : Nat)
  | warnFileNotFound
  | errorLoading
deriving DecidableEq, Repr

/-- Columns the pipeline accesses; absence of any of them raises inside the
`try` block and lands in the generic `except Exception` branch. -/
def requiredCols : List String := ["APPLICATION DATE", "REGION", "Status"]

/-- `load_and_prepare_data` (app.py lines 9-44): prepared rows paired with the
diagnostic that is printed.  Both exception branches hand the caller the same
empty frame; only the printed message differs. -/
def load_and_prepare_data (src : Source) (label : String) :
    List PreparedRecord × LoadDiag :=
  match src with
  | .missing => ([], .warnFileNotFound)
  | .table cols rows =>
    if requiredCols.all (fun c => cols.contains c) then
      (rows.filterMap (prepareRow label),
       .success (rows.filterMap (prepareRow label)).length)
    else
      ([], .errorLoading)

/-- Code-point lexicographic order on character lists — the order Python's
`sorted` uses on strings. -/
def lexLe : List Char → List Char → Bool
  | [], _ => true
  | _ :: _, [] => false
  | a :: as, b :: bs =>
    if a.toNat < b.toNat then true
    else if b.toNat < a.toNat then false
    else lexLe as bs

/-- Code-point lexicographic order on strings. -/
def strLe (a b : String) : Bool :=
  lexLe a.toList b.toList

/-- `strLe` as a relation, for use with `List.insertionSort`. -/
def strLeP : String → String → Prop :=
  fun a b => strLe a b = true

instance : DecidableRel strLeP :=
  fun a b => inferInstanceAs (Decidable (strLe a b = true))

/-- The startup `regions` value (app.py lines 54-59): the sentinel list when
the combined frame is empty, otherwise `sorted(df_combined["REGION"].unique())`. -/
def regions (combined : List PreparedRecord) : List String :=
  if combined.isEmpty then ["No Data Available"]
  else List.insertionSort strLeP (combined.map (fun r => r.region)).dedup

/-- Python truthiness of an optional string (`if selected_region:`):
`None` and the empty string are falsy. -/
def strTruthy : Option String → Bool
  | none => false
  | some s => !(s == "")

/-- Python truthiness of an optional integer (`if selected_month:`):
`None` and `0` are falsy. -/
def natTruthy : Option Nat → Bool
  | none => false
  | some n => !(n == 0)

/-- The region narrowing step (app.py lines 158-159). -/
def regionFiltered (combined : List PreparedRecord) (sel : Option String) :
    List PreparedRecord :=
  if strTruthy sel then combined.filter (fun r => r.region == sel.getD "")
  else combined

/-- The records surviving both the region and the month narrowing — the `dff`
the aggregation runs on (app.py lines 156-162). -/
def matchingRecords (combined : List PreparedRecord) (sel : Option String)
    (m : Nat) : List PreparedRecord :=
  (regionFiltered combined sel).filter (fun r => r.monthNum == m)

/-- The `YEAR_MONTH` label of a row (app.py lines 190-193):
`f"{calendar.month_name[row.MONTH_NUM]} {row.YEAR}"`. -/
def yearMonthLabel (r : PreparedRecord) : String :=
  monthName r.monthNum ++ " " ++ toString r.year

/-- The groupby key of a row: `(DAY_OF_MONTH, YEAR_MONTH)`. -/
def recKey (r : PreparedRecord) : Nat × String :=
  (r.dayOfMonth, yearMonthLabel r)

/-- Order on groupby keys: day first, then label, as pandas sorts group keys. -/
def keyLe (a b : Nat × String) : Bool :=
  if a.1 < b.1 then true
  else if b.1 < a.1 then false
  else strLe a.2 b.2

/-- `keyLe` as a relation. -/
def keyLeP : Nat × String → Nat × String → Prop :=
  fun a b => keyLe a b = true

instance : DecidableRel keyLeP :=
  fun a b => inferInstanceAs (Decidable (keyLe a b = true))

/-- The distinct groupby keys of a frame, in sorted order. -/
def aggKeys (dff : List PreparedRecord) : List (Nat × String) :=
  List.insertionSort keyLeP (dff.map recKey).dedup

/-- Size of one groupby bucket. -/
def countKey (dff : List PreparedRecord) (k : Nat × String) : Nat :=
  (dff.filter (fun r => recKey r == k)).length

/-- One row of the aggregation result (`daily_group`): day, period label and
the bucket size `TOTAL_PAID`. -/
structure AggRow where
  dayOfMonth : Nat
  yearMonth : String
  totalPaid : Nat
deriving DecidableEq, Repr

/-- `dff.groupby(["DAY_OF_MONTH", "YEAR_MONTH"]).size().reset_index(name="TOTAL_PAID")`
(app.py lines 196-200). -/
def dailyGroup (dff : List PreparedRecord) : List AggRow :=
  (aggKeys dff).map (fun k => ⟨k.1, k.2, countKey dff k⟩)

/-- What the callback hands back to the renderer, by branch: the empty-data
figure, the awaiting-month prompt, the empty-after-filtering figure with its
title, or a populated chart with its rows, x-axis day range and title. -/
inductive ChartResult
  | noData
  | awaitingMonth
  | emptyFiltered (title : String)
  | chart (rows : List AggRow) (maxDays : Nat) (title : String)
deriving DecidableEq, Repr

/-- Title of the empty-after-filtering figure (app.py lines 176-178): the
detail naming the filters is appended only when region AND month are truthy. -/
def emptyTitle (selRegion : Option String) (selMonth : Option Nat) : String :=
  let base := "No data available for the selected filters"
  if strTruthy selRegion && natTruthy selMonth then
    base ++ ": " ++ selRegion.getD "" ++ " in " ++ monthName (selMonth.getD 0)
  else base

/-- Title of the populated chart (app.py lines 217-218). -/
def chartTitle (selRegion : Option String) (m : Nat) : String :=
  "Daily Paid Applications: " ++ monthName m
    ++ (if strTruthy selRegion then " - " ++ selRegion.getD "" else "")

/-- The `update_chart` callback (app.py lines 141-243), returning what is
rendered.  Branch order follows the code: empty combined frame, then the
region narrowing, then the month-truthiness gate, then the empty-narrowed-set
check, then the groupby aggregation with
`max_days = calendar.monthrange(2024, selected_month)[1]`. -/
def update_chart (combined : List PreparedRecord) (selRegion : Option String)
    (selMonth : Option Nat) : ChartResult :=
  if combined.isEmpty then .noData
  else if natTruthy selMonth then
    if (matchingRecords combined selRegion (selMonth.getD 0)).isEmpty then
      .emptyFiltered (emptyTitle selRegion selMonth)
    else
      .chart (dailyGroup (matchingRecords combined selRegion (selMonth.getD 0)))
        (monthrangeDays 2024 (selMonth.getD 0))
        (chartTitle selRegion (selMonth.getD 0))
  else .awaitingMonth

/-- The same callback with the module-level `df_combined` table threaded as
explicit state.  The body starts from `dff = df_combined.copy()`, every later
narrowing and the `YEAR_MONTH` column assignment rebind the local `dff`, and
no statement ever assigns to `df_combined`, so each branch hands back the
global table it received. -/
def update_chart_st (dfCombined : List PreparedRecord) (selRegion : Option String)
    (selMonth : Option Nat) : ChartResult × List PreparedRecord :=
  if dfCombined.isEmpty then (.noData, dfCombined)
  else if natTruthy selMonth then
    if (matchingRecords dfCombined selRegion (selMonth.getD 0)).isEmpty then
      (.emptyFiltered (emptyTitle selRegion selMonth), dfCombined)
    else
      (.chart (dailyGroup (matchingRecords dfCombined selRegion (selMonth.getD 0)))
        (monthrangeDays 2024 (selMonth.getD 0))
        (chartTitle selRegion (selMonth.getD 0)), dfCombined)
  else (.awaitingMonth, dfCombined)

/-- Scenario A's raw row exactly as the spec words it: a day-first date with
no time-of-day component. -/
def rawScenA : RawRecord := ⟨some "05.03.2024", some "North", some "Paid"⟩

/-- The same row with the time-of-day part the code's format string demands. -/
def rawScenA1 : RawRecord := ⟨some "05.03.2024 00:00:00", some "North", some "Paid"⟩

/-- A raw row whose status is the upper-case variant "PAID". -/
def rawUpper : RawRecord := ⟨some "05.03.2024 00:00:00", some "North", some "PAID"⟩

/-- The prepared record the loader produces from `rawUpper`: the stored status
keeps its original casing. -/
def recUpper : PreparedRecord := ⟨⟨2024, 3, 5, 0, 0, 0⟩, "North", "PAID", 5, 2024, 3, "2024"⟩

/-- Prepared record: region "North", 5 March 2024. -/
def recScenA : PreparedRecord := ⟨⟨2024, 3, 5, 0, 0, 0⟩, "North", "Paid", 5, 2024, 3, "2024"⟩

/-- Prepared record: region "South", same day, month and year as `recScenA`. -/
def recSouth : PreparedRecord := ⟨⟨2024, 3, 5, 0, 0, 0⟩, "South", "paid", 5, 2024, 3, "2025"⟩

/-- Prepared record dated 10 February 2025 (a non-leap data year). -/
def recFeb : PreparedRecord := ⟨⟨2025, 2, 10, 0, 0, 0⟩, "North", "Paid", 10, 2025, 2, "2025"⟩

/-! ### Helper lemmas -/

/-- Summing bucket sizes over a duplicate-free key list that covers every
element's key recovers the length of the list being bucketed. -/
theorem sum_filter_length_of_key {α κ : Type} [BEq κ] [LawfulBEq κ] (key : α → κ) :
    ∀ (ks : List κ) (l : List α), ks.Nodup → (∀ a ∈ l, key a ∈ ks) →
      (ks.map (fun k => (l.filter (fun a => key a == k)).length)).sum = l.length
  | [], l, _, hall => by
    cases l with
    | nil => rfl
    | cons a t => exact absurd (hall a (List.mem_cons_self a t)) (List.not_mem_nil _)
  | k :: ks, l, hnd, hall => by
    have hknotin : k ∉ ks := (List.nodup_cons.1 hnd).1
    have hndks : ks.Nodup := (List.nodup_cons.1 hnd).2
    have hcongr : ∀ k2 ∈ ks,
        (l.filter (fun a => key a == k2)).length
          = ((l.filter (fun a => !(key a == k))).filter (fun a => key a == k2)).length := by
      intro k2 hk2
      have hk2k : ¬ k2 = k := fun he => hknotin (he ▸ hk2)
      rw [List.filter_filter]
      apply congrArg
      apply List.filter_congr
      intro a _
      by_cases h : key a = k2
      · simp [h, hk2k]
      · simp [h]
    have hall2 : ∀ a ∈ l.filter (fun a => !(key a == k)), key a ∈ ks := by
      intro a ha
      obtain ⟨hal, hcond⟩ := List.mem_filter.1 ha
      have hne : key a ≠ k := by simpa using hcond
      rcases List.mem_cons.1 (hall a hal) with h | h
      · exact absurd h hne
      · exact h
    have ih := sum_filter_length_of_key key ks (l.filter (fun a => !(key a == k))) hndks hall2
    calc ((k :: ks).map (fun k2 => (l.filter (fun a => key a == k2)).length)).sum
        = (l.filter (fun a => key a == k)).length
            + (ks.map (fun k2 => (l.filter (fun a => key a == k2)).length)).sum := by
          simp
      _ = (l.filter (fun a => key a == k)).length
            + (ks.map (fun k2 =>
                ((l.filter (fun a => !(key a == k))).filter (fun a => key a == k2)).length)).sum := by
          rw [List.map_congr_left hcongr]
      _ = (l.filter (fun a => key a == k)).length
            + (l.filter (fun a => !(key a == k))).length := by rw [ih]
      _ = l.length := (List.length_eq_length_filter_add (fun a => key a == k)).symm

/-- The bucket sizes of `dailyGroup` sum to the number of rows grouped. -/
theorem dailyGroup_sum (dff : List PreparedRecord) :
    ((dailyGroup dff).map AggRow.totalPaid).sum = dff.length := by
  have hnd : (aggKeys dff).Nodup :=
    ((List.perm_insertionSort keyLeP (dff.map recKey).dedup).nodup_iff).2
      (List.nodup_dedup _)
  have hall : ∀ r ∈ dff, recKey r ∈ aggKeys dff := by
    intro r hr
    rw [aggKeys, List.mem_insertionSort, List.mem_dedup]
    exact List.mem_map_of_mem recKey hr
  have hsum := sum_filter_length_of_key recKey (aggKeys dff) dff hnd hall
  unfold dailyGroup
  rw [List.map_map]
  simp only [Function.comp_def, countKey]
  exact hsum

/-- Every bucket of `dailyGroup` is built from at least one existing row. -/
theorem dailyGroup_pos (dff : List PreparedRecord) (row : AggRow)
    (h : row ∈ dailyGroup dff) : 1 ≤ row.totalPaid := by
  unfold dailyGroup at h
  obtain ⟨k, hk, rfl⟩ := List.mem_map.1 h
  rw [aggKeys, List.mem_insertionSort, List.mem_dedup] at hk
  obtain ⟨r, hr, hrk⟩ := List.mem_map.1 hk
  have hmem : r ∈ dff.filter (fun r => recKey r == k) :=
    List.mem_filter.2 ⟨hr, by simp [hrk]⟩
  have hp := List.length_pos_of_mem hmem
  simpa [countKey] using hp

/-- The code-point lexicographic order is total. -/
theorem lexLe_total : ∀ as bs : List Char, lexLe as bs = true ∨ lexLe bs as = true
  | [], _ => Or.inl rfl
  | _ :: _, [] => Or.inr rfl
  | a :: as, b :: bs => by
    unfold lexLe
    rcases Nat.lt_trichotomy a.toNat b.toNat with h | h | h
    · left
      rw [if_pos h]
    · have h2 : ¬ a.toNat < b.toNat := by omega
      have h3 : ¬ b.toNat < a.toNat := by omega
      rw [if_neg h2, if_neg h3, if_neg h3, if_neg h2]
      exact lexLe_total as bs
    · right
      rw [if_pos h]

/-- The code-point lexicographic order is transitive. -/
theorem lexLe_trans : ∀ as bs cs : List Char,
    lexLe as bs = true → lexLe bs cs = true → lexLe as cs = true
  | [], _, _, _, _ => rfl
  | _ :: _, [], _, h1, _ => by simp [lexLe] at h1
  | _ :: _, _ :: _, [], _, h2 => by simp [lexLe] at h2
  | a :: as, b :: bs, c :: cs, h1, h2 => by
    unfold lexLe at h1 h2 ⊢
    split at h1
    · rename_i hab
      split at h2
      · rename_i hbc
        rw [if_pos (by omega)]
      · split at h2
        · exact absurd h2 (by simp)
        · rename_i hbc1 hbc2
          rw [if_pos (by omega)]
    · split at h1
      · exact absurd h1 (by simp)
      · rename_i hab1 hab2
        split at h2
        · rename_i hbc
          rw [if_pos (by omega)]
        · split at h2
          · exact absurd h2 (by simp)
          · rename_i hbc1 hbc2
            rw [if_neg (by omega), if_neg (by omega)]
            exact lexLe_trans as bs cs h1 h2

/-- The state-passing callback computes the pure callback's figure and returns
the combined table unchanged. -/
theorem update_chart_st_eq (c : List PreparedRecord) (r : Option String)
    (m : Option Nat) : update_chart_st c r m = (update_chart c r m, c) := by
  unfold update_chart_st update_chart
  split
  · rfl
  · split
    · split
      · rfl
      · rfl
    · rfl

/-- Inversion: a populated chart can only come out of the groupby branch, with
its rows, day range and title determined by the narrowed record set. -/
theorem update_chart_chart_eq (combined : List PreparedRecord)
    (selRegion : Option String) (selMonth : Option Nat) (rows : List AggRow)
    (md : Nat) (t : String)
    (h : update_chart combined selRegion selMonth = ChartResult.chart rows md t) :
    rows = dailyGroup (matchingRecords combined selRegion (selMonth.getD 0))
    ∧ md = monthrangeDays 2024 (selMonth.getD 0)
    ∧ t = chartTitle selRegion (selMonth.getD 0) := by
  unfold update_chart at h
  split at h
  · simp at h
  · split at h
    · split at h
      · simp at h
      · injection h with h1 h2 h3
        exact ⟨h1.symm, h2.symm, h3.symm⟩
    · simp at h

/-! ### Claim theorems -/

/-- C1, counterexample: the loader does not parse a day-first timestamp whose
time-of-day part is absent.  On the Scenario A record with date "05.03.2024"
the strict format coerces the date to NaT, the row is dropped, the prepared
set is empty, and aggregating with region "North" and month 3 yields the
no-data figure instead of one AggregationRow. -/
theorem c1_counterexample :
    parseTimestamp "05.03.2024" = none
    ∧ (load_and_prepare_data (Source.table requiredCols [rawScenA]) "2024").1 = []
    ∧ update_chart (load_and_prepare_data (Source.table requiredCols [rawScenA]) "2024").1
        (some "North") (some 3) = ChartResult.noData := by
  refine ⟨by decide, by decide, by decide⟩

/-- C1, amended: a timestamp string lacking the time-of-day component is
dropped by the loader; with the time-of-day present ("05.03.2024 00:00:00"),
loading the single North/Paid record and aggregating with regionFilter="North"
and monthFilter=3 yields exactly one AggregationRow with dayOfMonth=5,
periodLabel="March 2024" and count=1. -/
theorem c1_amended_holds :
    parseTimestamp "05.03.2024 00:00:00" = some ⟨2024, 3, 5, 0, 0, 0⟩
    ∧ update_chart (load_and_prepare_data (Source.table requiredCols [rawScenA1]) "2024").1
        (some "North") (some 3)
      = ChartResult.chart [⟨5, "March 2024", 1⟩] 31 "Daily Paid Applications: March - North" := by
  refine ⟨by decide, by decide⟩

/-- C2, counterexample: the aggregation computes the day range from reference
year 2024, which is a leap year, so for month=2 the maxDaysInMonth is 29,
not 28 — even when the data comes from the non-leap year 2025. -/
theorem c2_counterexample :
    update_chart [recFeb] none (some 2)
      = ChartResult.chart [⟨10, "February 2025", 1⟩] 29 "Daily Paid Applications: February"
    ∧ monthrangeDays 2024 2 = 29 ∧ ¬ monthrangeDays 2024 2 = 28 := by
  refine ⟨by decide, by decide, by decide⟩

/-- C2, amended: every rendered chart's maxDaysInMonth equals
`calendar.monthrange(2024, month)[1]` — a fixed reference year independent of
the years present in the data, but a leap year, so month=2 gives 29 (not 28),
month=4 gives 30 and month=1 gives 31. -/
theorem c2_amended_holds (combined : List PreparedRecord) (selRegion : Option String)
    (m : Nat) (rows : List AggRow) (md : Nat) (t : String)
    (h : update_chart combined selRegion (some m) = ChartResult.chart rows md t) :
    md = monthrangeDays 2024 m
    ∧ monthrangeDays 2024 2 = 29 ∧ monthrangeDays 2024 4 = 30 ∧ monthrangeDays 2024 1 = 31 := by
  obtain ⟨-, hmd, -⟩ := update_chart_chart_eq combined selRegion (some m) rows md t h
  exact ⟨by simpa using hmd, by decide, by decide, by decide⟩

/-- C2, witness: the amended theorem applied to the concrete February chart. -/
theorem c2_amended_witness :
    (29 : Nat) = monthrangeDays 2024 2
    ∧ monthrangeDays 2024 2 = 29 ∧ monthrangeDays 2024 4 = 30 ∧ monthrangeDays 2024 1 = 31 :=
  c2_amended_holds [recFeb] none 2 [⟨10, "February 2025", 1⟩] 29
    "Daily Paid Applications: February" (by decide)

/-- C3, counterexample: a readable source missing the required
"APPLICATION DATE" column hands the caller exactly the same empty prepared
sequence as a missing file — the missing-column condition is not a distinct
caller-visible result. -/
theorem c3_counterexample :
    (load_and_prepare_data (Source.table ["REGION", "Status"] [rawScenA1]) "2024").1
      = (load_and_prepare_data Source.missing "2024").1
    ∧ (load_and_prepare_data (Source.table ["REGION", "Status"] [rawScenA1]) "2024").1 = [] := by
  refine ⟨by decide, by decide⟩

/-- C3, amended: a missing required column lands in the generic exception
branch and produces the same empty record list as a missing file; the two
conditions differ only in the diagnostic line printed ("Error loading ..."
versus the file-not-found warning), not in any caller-visible startup error
path. -/
theorem c3_amended_holds (label : String) (cols : List String) (rows : List RawRecord)
    (h : requiredCols.all (fun c => cols.contains c) = false) :
    load_and_prepare_data (Source.table cols rows) label = ([], LoadDiag.errorLoading)
    ∧ load_and_prepare_data Source.missing label = ([], LoadDiag.warnFileNotFound) := by
  refine ⟨?_, rfl⟩
  simp only [load_and_prepare_data]
  rw [if_neg (by simp only [h]; decide)]

/-- C3, witness: the amended theorem applied to a table lacking the
"APPLICATION DATE" column. -/
theorem c3_amended_witness :
    load_and_prepare_data (Source.table ["REGION", "Status"] []) "2025"
      = ([], LoadDiag.errorLoading)
    ∧ load_and_prepare_data Source.missing "2025" = ([], LoadDiag.warnFileNotFound) :=
  c3_amended_holds "2025" ["REGION", "Status"] [] (by decide)

/-- C4, counterexample: a row whose status is "PAID" survives the filter but
is kept with its original un-normalized casing — the stored status is "PAID",
not "paid", so upper-case variants do leak through un-normalized. -/
theorem c4_counterexample :
    (load_and_prepare_data (Source.table requiredCols [rawUpper]) "2024").1 = [recUpper]
    ∧ recUpper.status = "PAID" ∧ ¬ recUpper.status = "paid" := by
  refine ⟨by decide, rfl, by decide⟩

/-- C4, amended: every prepared record produced by the loader has a status
that, after stripping whitespace and lowercasing, equals exactly "paid"; the
stored status field itself, however, keeps its original form. -/
theorem c4_amended_holds (src : Source) (label : String) (r : PreparedRecord)
    (h : r ∈ (load_and_prepare_data src label).1) :
    pyLower (pyStrip r.status) = "paid" := by
  cases src with
  | missing => simp [load_and_prepare_data] at h
  | table cols rows =>
    simp only [load_and_prepare_data] at h
    split at h
    · obtain ⟨raw, hraw, hp⟩ := List.mem_filterMap.1 h
      unfold prepareRow at hp
      split at hp
      · split at hp
        · rename_i hcond
          injection hp with hpr
          rw [← hpr]
          simpa using hcond
        · simp at hp
      · simp at hp
    · simp at h

/-- C4, witness: the amended theorem applied to the record loaded from the
Scenario A row. -/
theorem c4_amended_witness : pyLower (pyStrip recScenA.status) = "paid" :=
  c4_amended_holds (Source.table requiredCols [rawScenA1]) "2024" recScenA (by decide)

/-- C5: whenever the callback renders a chart, the counts of its rows sum to
the number of prepared records matching the region and month filters; and two
records with the same day, month and year fall into the same
(dayOfMonth, periodLabel) bucket regardless of their regions. -/
theorem c5_claim_holds :
    (∀ (combined : List PreparedRecord) (selRegion : Option String) (m : Nat)
        (rows : List AggRow) (md : Nat) (t : String),
      update_chart combined selRegion (some m) = ChartResult.chart rows md t →
      (rows.map AggRow.totalPaid).sum = (matchingRecords combined selRegion m).length)
    ∧ (∀ r1 r2 : PreparedRecord, r1.dayOfMonth = r2.dayOfMonth →
        r1.monthNum = r2.monthNum → r1.year = r2.year → recKey r1 = recKey r2) := by
  constructor
  · intro combined selRegion m rows md t h
    obtain ⟨hrows, -, -⟩ := update_chart_chart_eq combined selRegion (some m) rows md t h
    rw [hrows]
    simpa using dailyGroup_sum (matchingRecords combined selRegion m)
  · intro r1 r2 hd hm hy
    unfold recKey yearMonthLabel
    rw [hd, hm, hy]

/-- C5, witness: Scenario E — two records on 5 March 2024 in different
regions, no region filter, month 3: one bucket of count 2, and the two
records share the groupby key. -/
theorem c5_witness :
    (([⟨5, "March 2024", 2⟩] : List AggRow).map AggRow.totalPaid).sum
        = (matchingRecords [recScenA, recSouth] none 3).length
    ∧ recKey recScenA = recKey recSouth :=
  ⟨c5_claim_holds.1 [recScenA, recSouth] none 3 [⟨5, "March 2024", 2⟩] 31
      "Daily Paid Applications: March" (by decide),
   c5_claim_holds.2 recScenA recSouth rfl rfl rfl⟩

/-- C6: for every non-empty dataset and every region selection, supplying no
month makes the callback return the awaiting-month prompt, never a chart. -/
theorem c6_claim_holds (combined : List PreparedRecord) (selRegion : Option String)
    (h : ¬ combined = []) :
    update_chart combined selRegion none = ChartResult.awaitingMonth := by
  unfold update_chart
  rw [if_neg (by simpa using h)]
  rfl

/-- C6, witness: the theorem applied to a one-record dataset with a region
selected. -/
theorem c6_witness : update_chart [recScenA] (some "North") none = ChartResult.awaitingMonth :=
  c6_claim_holds [recScenA] (some "North") (by decide)

/-- C7, counterexample: when only a month filter is supplied and it excludes
every record, the empty result does not carry the applied filter — months 6
and 7 produce the identical generic title, which never names "June". -/
theorem c7_counterexample :
    update_chart [recScenA, recSouth] none (some 6)
      = ChartResult.emptyFiltered "No data available for the selected filters"
    ∧ update_chart [recScenA, recSouth] none (some 7)
      = ChartResult.emptyFiltered "No data available for the selected filters"
    ∧ monthName 6 = "June" := by
  refine ⟨by decide, by decide, by decide⟩

/-- C7, amended: when BOTH a region and a month are supplied and exclude every
record, the empty result names both (": {region} in {month name}"); when only
a month is supplied, the empty result carries only the generic message with no
filter named. -/
theorem c7_amended_holds :
    (∀ (combined : List PreparedRecord) (selRegion : String) (m : Nat),
      combined.isEmpty = false → ¬ selRegion = "" → ¬ m = 0 →
      (matchingRecords combined (some selRegion) m).isEmpty = true →
      update_chart combined (some selRegion) (some m)
        = ChartResult.emptyFiltered
            ("No data available for the selected filters" ++ ": " ++ selRegion
              ++ " in " ++ monthName m))
    ∧ (∀ (combined : List PreparedRecord) (m : Nat),
      combined.isEmpty = false → ¬ m = 0 →
      (matchingRecords combined none m).isEmpty = true →
      update_chart combined none (some m)
        = ChartResult.emptyFiltered "No data available for the selected filters") := by
  constructor
  · intro combined selRegion m hne hreg hm hempty
    simp [update_chart, hne, natTruthy, hm, hempty, emptyTitle, strTruthy, hreg]
  · intro combined m hne hm hempty
    simp [update_chart, hne, natTruthy, hm, hempty, emptyTitle, strTruthy]

/-- C7, witness: Scenario C — region "South" (absent) with month 6 yields the
empty result naming "South" and "June". -/
theorem c7_amended_witness :
    update_chart [recScenA] (some "South") (some 6)
      = ChartResult.emptyFiltered
          ("No data available for the selected filters" ++ ": " ++ "South"
            ++ " in " ++ monthName 6)
    ∧ monthName 6 = "June" :=
  ⟨c7_amended_holds.1 [recScenA] "South" 6 (by decide) (by decide) (by decide) (by decide),
   by decide⟩

/-- C8: an empty combined dataset yields the single-element sentinel list
["No Data Available"]; a non-empty one yields a sorted, duplicate-free list
containing exactly the region values present in the records. -/
theorem c8_claim_holds :
    regions [] = ["No Data Available"]
    ∧ ∀ combined : List PreparedRecord, ¬ combined = [] →
        List.Sorted strLeP (regions combined)
        ∧ (regions combined).Nodup
        ∧ ∀ s : String, s ∈ regions combined ↔ ∃ r ∈ combined, r.region = s := by
  constructor
  · rfl
  · intro combined hne
    have hif : regions combined
        = List.insertionSort strLeP (combined.map (fun r => r.region)).dedup := by
      unfold regions
      rw [if_neg (by simpa using hne)]
    refine ⟨?_, ?_, ?_⟩
    · rw [hif]
      haveI : IsTotal String strLeP := ⟨fun a b => lexLe_total a.toList b.toList⟩
      haveI : IsTrans String strLeP := ⟨fun a b c => lexLe_trans a.toList b.toList c.toList⟩
      exact List.sorted_insertionSort strLeP _
    · rw [hif]
      exact ((List.perm_insertionSort strLeP _).nodup_iff).2 (List.nodup_dedup _)
    · intro s
      rw [hif]
      simp [List.mem_insertionSort, List.mem_dedup, List.mem_map]

/-- C8, witness: the theorem applied to a two-region dataset. -/
theorem c8_witness :
    (regions [recScenA, recSouth]).Nodup
    ∧ ("South" ∈ regions [recScenA, recSouth]
        ↔ ∃ r ∈ [recScenA, recSouth], r.region = "South") :=
  ⟨(c8_claim_holds.2 [recScenA, recSouth] (by decide)).2.1,
   (c8_claim_holds.2 [recScenA, recSouth] (by decide)).2.2 "South"⟩

/-- C9: every aggregation-and-render cycle hands back the combined dataset
unchanged, re-running the cycle on the state it leaves behind reproduces the
same outcome, and the state-passing callback computes exactly the pure
callback's figure — so repeated aggregation of the same inputs is identical. -/
theorem c9_claim_holds : ∀ (combined : List PreparedRecord) (selRegion : Option String)
    (selMonth : Option Nat),
    (update_chart_st combined selRegion selMonth).2 = combined
    ∧ update_chart_st ((update_chart_st combined selRegion selMonth).2) selRegion selMonth
        = update_chart_st combined selRegion selMonth
    ∧ (update_chart_st combined selRegion selMonth).1
        = update_chart combined selRegion selMonth := by
  intro c r m
  have h2 : (update_chart_st c r m).2 = c := by rw [update_chart_st_eq]
  refine ⟨h2, by rw [h2], by rw [update_chart_st_eq]⟩

/-- C10: every AggregationRow of a rendered chart has a strictly positive
count — buckets are formed only from existing records. -/
theorem c10_claim_holds (combined : List PreparedRecord) (selRegion : Option String)
    (selMonth : Option Nat) (rows : List AggRow) (md : Nat) (t : String)
    (h : update_chart combined selRegion selMonth = ChartResult.chart rows md t) :
    ∀ row ∈ rows, 1 ≤ row.totalPaid := by
  obtain ⟨hrows, -, -⟩ := update_chart_chart_eq combined selRegion selMonth rows md t h
  subst hrows
  intro row hrow
  exact dailyGroup_pos _ row hrow

/-- C10, witness: the theorem applied to the Scenario E chart row of count 2. -/
theorem c10_witness : 1 ≤ (⟨5, "March 2024", 2⟩ : AggRow).totalPaid :=
  c10_claim_holds [recScenA, recSouth] none (some 3) [⟨5, "March 2024", 2⟩] 31
    "Daily Paid Applications: March" (by decide) ⟨5, "March 2024", 2⟩ (by decide)
